import Mathlib

/-
Shallow embedding of the opendia browser-automation system:
the MCP bridge (src/opendia-mcp/server.js), the extension background
dispatcher (src/opendia-extension/src/background/background.js) and the
content-script automation engine (src/opendia-extension/src/content/content.js).
Pure control flow is translated to Lean functions; host capabilities
(WebSocket, DOM, tabs API) appear as explicit oracles; JavaScript throw/catch
is modelled with Except.
-/

namespace Opendia

/-! ### Transport/correlation layer (src/opendia-mcp/server.js)

`pendingCalls` is a JS `Map` from call id to `{resolve, reject}`; we track the
list of live ids and surface resolve/reject as an explicit `CallEvent`. -/

/-- Observable outcome of touching the pending-call table: a promise is
resolved, rejected with an error message, or nothing at all happens. -/
inductive CallEvent where
  | resolvedCall (id : String)
  | rejectedCall (id : String) (msg : String)
  | noEvent
deriving Repr, DecidableEq

/-- The correlation state: the ids that currently have a live `PendingCall`
entry in the `pendingCalls` map of server.js. -/
structure TransportState where
  pendingCalls : List String
deriving Repr, DecidableEq

/-- `pendingCalls.has(id)` (also the truthiness test of `pendingCalls.get(id)`,
since the map never stores falsy values). -/
def hasPending (s : TransportState) (id : String) : Bool :=
  s.pendingCalls.contains id

/-- `pendingCalls.delete(id)`: removes the entry for `id`, if any. -/
def deletePending (s : TransportState) (id : String) : TransportState :=
  ⟨s.pendingCalls.filter (fun x => x ≠ id)⟩

/-- The delay constant of the `setTimeout` armed in `callBrowserTool`
(server.js: "Timeout after 30 seconds"). -/
def toolCallTimeoutMs : Nat := 30000

/-- The timeout callback armed in `callBrowserTool` (server.js lines 1072-1077),
firing `toolCallTimeoutMs` ms after send: if the call is still pending, the
entry is deleted and the promise rejected with "Tool call timeout"; otherwise
the callback does nothing. -/
def timeoutCallback (s : TransportState) (callId : String) : TransportState × CallEvent :=
  if hasPending s callId then
    (deletePending s callId, .rejectedCall callId "Tool call timeout")
  else
    (s, .noEvent)

/-- A `{id, result|error}` frame from the extension; `error = some msg` models
an error reply (the code reads `message.error.message`). The `result` payload
is irrelevant to the correlation logic. -/
structure ToolResponse where
  id : String
  error : Option String
deriving Repr, DecidableEq

/-- server.js `handleToolResponse`: look the id up in `pendingCalls`; if an
entry exists, delete it and settle the promise (reject on `message.error`,
resolve otherwise); a frame whose id has no entry does nothing. -/
def handleToolResponse (s : TransportState) (m : ToolResponse) : TransportState × CallEvent :=
  if hasPending s m.id then
    (deletePending s m.id,
      match m.error with
      | some msg => .rejectedCall m.id msg
      | none => .resolvedCall m.id)
  else
    (s, .noEvent)

/-! ### The tools/call branch of handleMCPRequest (src/opendia-mcp/server.js) -/

/-- The literal reply text of the `tools/call` branch when the extension socket
is absent or not open (server.js lines 107-116). -/
def extensionNotConnectedMessage : String :=
  "❌ Chrome Extension not connected. Please install and activate the browser extension, then try again.\n\nSetup instructions:\n1. Go to chrome://extensions/\n2. Enable Developer mode\n3. Click \x27Load unpacked\x27 and select the extension folder\n4. Ensure the extension is active\n\n🎯 Features: Anti-detection bypass for Twitter/X, LinkedIn, Facebook + universal automation"

/-- The `{content: [{type: "text", text}], isError}` result shape, reduced to
the text and the error flag. -/
structure ToolsCallContent where
  text : String
  isError : Bool
deriving Repr, DecidableEq

/-- The `tools/call` branch of `handleMCPRequest` (server.js lines 101-148).
`connected` is `chromeExtensionSocket && readyState === OPEN`; `callTool`
abstracts the awaited `callBrowserTool` (which threads the transport state,
since it registers a `PendingCall`); `formatToolResult` abstracts the
formatting helper. -/
def handleToolsCall (connected : Bool)
    (callTool : TransportState → TransportState × Except String String)
    (formatToolResult : String → String)
    (s : TransportState) : TransportState × ToolsCallContent :=
  if connected = false then
    (s, ⟨extensionNotConnectedMessage, true⟩)
  else
    match callTool s with
    | (s2, .ok toolResult) => (s2, ⟨formatToolResult toolResult, false⟩)
    | (s2, .error msg) => (s2, ⟨"❌ Tool execution failed: " ++ msg, true⟩)

/-! ### Connection manager backoff (src/opendia-extension/src/background/background.js) -/

/-- `ConnectionManager.scheduleReconnect` (background.js line 174):
`Math.min(5000 * Math.pow(2, this.reconnectAttempts), 30000)`. -/
def reconnectBackoffMs (reconnectAttempts : Nat) : Nat :=
  min (5000 * 2 ^ reconnectAttempts) 30000

/-! ### JS string helpers -/

/-- Whether `pat` is a prefix of `l` (character-by-character). -/
def listStartsWith : List Char → List Char → Bool
  | _, [] => true
  | [], _ :: _ => false
  | c :: cs, p :: ps => c = p && listStartsWith cs ps

/-- Whether `pat` occurs contiguously inside `l`. -/
def listContainsSeq : List Char → List Char → Bool
  | [], pat => pat.isEmpty
  | c :: cs, pat => listStartsWith (c :: cs) pat || listContainsSeq cs pat

/-- JavaScript `String.prototype.includes`: substring containment. -/
def jsIncludes (s pat : String) : Bool :=
  listContainsSeq s.data pat.data

/-- JavaScript `String.prototype.toLowerCase`, characterwise (this agrees with
JS on the ASCII keywords the intent parser compares against). -/
def jsToLower (s : String) : String :=
  ⟨s.data.map Char.toLower⟩

/-! ### Discovery engine (src/opendia-extension/src/content/content.js) -/

/-- The values the `usedMethod` variable of `quickDiscovery` can take. -/
inductive UsedMethod where
  | quick_discovery
  | anti_detection_bypass
  | enhanced_patterns
  | viewport_scan
deriving Repr, DecidableEq

/-- The page/hint-dependent inputs of one `quickDiscovery` run.
Confidences are modelled over ℚ, standing for the JS number literals. -/
structure DiscoveryEnv where
  /-- `detectAntiDetectionPlatform(hostname) !== null` -/
  platformMatched : Bool
  /-- `intent_hint.includes("post")` -/
  hintHasPost : Bool
  /-- `intent_hint.includes("tweet")` -/
  hintHasTweet : Bool
  /-- `tryAntiDetectionPatterns(...).confidence` -/
  bypassConfidence : ℚ
  /-- `tryAntiDetectionPatterns(...).elements.length` -/
  bypassElementCount : Nat
  /-- `tryEnhancedPatterns(...).confidence` -/
  patternConfidence : ℚ
  /-- `tryEnhancedPatterns(...).elements.length` -/
  patternElementCount : Nat
  /-- confidences of the visible viewport candidates in document order
  (the candidates surviving `filter(isLikelyVisible)`, before `.slice(0, 10)`) -/
  visibleCandidates : List ℚ

/-- The JS lookup of the identifier `bestMethod` in the fallback guard of
`quickDiscovery` (content.js line 673): `bestMethod` is declared nowhere in
the enclosing scopes, so evaluating it throws a ReferenceError, modelled as
`.error ()`. -/
def bestMethodLookup : Except Unit String := .error ()

/-- The try block of `quickDiscovery` (content.js lines 649-685), reduced to
the pair `(quickMatches.length, usedMethod)`. An `.error` result carries the
values those variables hold when a throw escapes to the catch clause. -/
def quickDiscoveryTryBlock (env : DiscoveryEnv) :
    Except (Nat × UsedMethod) (Nat × UsedMethod) :=
  -- anti-detection step: quickMatches starts [], usedMethod "quick_discovery"
  let s1 : Nat × UsedMethod :=
    if env.platformMatched && (env.hintHasPost || env.hintHasTweet) then
      if env.bypassConfidence > 0.9 then
        (min env.bypassElementCount 3, .anti_detection_bypass)  -- `.slice(0, 3)`
      else (0, .quick_discovery)
    else (0, .quick_discovery)
  -- `if (quickMatches.length === 0 && (bestMethod === "enhanced_pattern_match"
  --      || bestMethod === "pattern_database"))` : when the left conjunct is
  -- true, the guard evaluates `bestMethod` and the ReferenceError propagates.
  if s1.1 = 0 then
    match bestMethodLookup with
    | .error _ => .error s1
    | .ok bm =>
      if bm = "enhanced_pattern_match" || bm = "pattern_database" then
        if env.patternConfidence > 0.7 then
          .ok (min env.patternElementCount 3, .enhanced_patterns)
        else .ok s1
      else .ok s1
  else .ok s1

/-- `quickViewportScan` (content.js lines 2108-2131), result count only: the
visible candidates are cut to the first 10 (`.slice(0, 10)`), scored, kept
when confidence exceeds 0.3, sorted (length-preserving) and cut to
`maxResults`. -/
def quickViewportScanCount (visibleCandidates : List ℚ) (maxResults : Nat) : Nat :=
  min (((visibleCandidates.take 10).filter (fun c => c > 0.3)).length) maxResults

/-- `quickDiscovery` (content.js lines 635-721), reduced to
`(quickMatches.length, usedMethod)`: the try/catch around the pattern steps
(the catch only logs a warning, keeping the variables' current values),
followed by the viewport scan whenever no pattern match was adopted. -/
def quickDiscoveryResult (env : DiscoveryEnv) : Nat × UsedMethod :=
  let s2 : Nat × UsedMethod :=
    match quickDiscoveryTryBlock env with
    | .ok r => r
    | .error r => r
  if s2.1 = 0 then
    (quickViewportScanCount env.visibleCandidates 3, .viewport_scan)
  else s2

/-- A discover-phase input on which the spec's claimed priority order and the
code diverge: no bypass platform matches, while the generic pattern rule for
the parsed intent matches with confidence 0.95. -/
def patternOnlyEnv : DiscoveryEnv :=
  ⟨false, false, false, 0, 0, 0.95, 2, [0.5, 0.2]⟩

/-! ### Intent parsing (content.js `parseIntent`, lines 882-965) -/

/-- `BrowserAutomation.parseIntent`: the keyword cascade over the lowercased
free-text hint, ending in the fixed default `["content", "post_create"]`. -/
def parseIntent (intent : String) : String × String :=
  let intentLower := jsToLower intent
  if jsIncludes intentLower "login" || jsIncludes intentLower "sign in" ||
      jsIncludes intentLower "log in" then ("auth", "login")
  else if jsIncludes intentLower "signup" || jsIncludes intentLower "sign up" ||
      jsIncludes intentLower "register" || jsIncludes intentLower "create account" then
    ("auth", "signup")
  else if jsIncludes intentLower "tweet" || jsIncludes intentLower "post" ||
      jsIncludes intentLower "compose" || jsIncludes intentLower "create" ||
      jsIncludes intentLower "write" || jsIncludes intentLower "publish" then
    ("content", "post_create")
  else if jsIncludes intentLower "comment" || jsIncludes intentLower "reply" then
    ("content", "comment")
  else if jsIncludes intentLower "search" || jsIncludes intentLower "find" ||
      jsIncludes intentLower "look for" then
    ("search", "global")
  else if jsIncludes intentLower "menu" || jsIncludes intentLower "navigation" ||
      jsIncludes intentLower "nav" then
    ("nav", "menu")
  else if jsIncludes intentLower "submit" || jsIncludes intentLower "send" ||
      jsIncludes intentLower "save" then
    ("form", "submit")
  else if jsIncludes intentLower "reset" || jsIncludes intentLower "clear" ||
      jsIncludes intentLower "cancel" then
    ("form", "reset")
  else if jsIncludes intentLower "button" || jsIncludes intentLower "click" then
    ("form", "submit")
  else if jsIncludes intentLower "input" || jsIncludes intentLower "field" ||
      jsIncludes intentLower "text" then
    ("content", "post_create")
  else
    ("content", "post_create")

/-- Every keyword `parseIntent` tests with `includes`, in order. -/
def intentKeywords : List String :=
  ["login", "sign in", "log in", "signup", "sign up", "register", "create account",
   "tweet", "post", "compose", "create", "write", "publish", "comment", "reply",
   "search", "find", "look for", "menu", "navigation", "nav",
   "submit", "send", "save", "reset", "clear", "cancel",
   "button", "click", "input", "field", "text"]

/-- Whether the lowercased hint matches any recognized keyword pattern. -/
def matchesAnyIntentKeyword (intent : String) : Bool :=
  intentKeywords.any (fun k => jsIncludes (jsToLower intent) k)

/-! ### Element registry and interaction (content.js) -/

/-- An abstract DOM element handle: its accessible name and the text/value
the page currently reports for it. -/
structure Elem where
  name : String
  value : String
deriving Repr, DecidableEq

/-- The two id→element maps of one page generation: `quickRegistry` (ids
"q1", "q2", …) and `elementRegistry` (ids "element_1", …). The content
script's constructor creates both as fresh empty Maps on every page load, so
they are discarded wholesale on navigation/reload. -/
structure PageRegistries where
  quickRegistry : String → Option Elem
  elementRegistry : String → Option Elem

/-- JavaScript `String.prototype.startsWith`. -/
def jsStartsWith (s pat : String) : Bool :=
  listStartsWith s.data pat.data

/-- `getElementById` (content.js lines 1895-1902): ids starting with "q" are
looked up in the quick registry only, all others in the main registry. -/
def getElementById (r : PageRegistries) (id : String) : Option Elem :=
  if jsStartsWith id "q" then r.quickRegistry id else r.elementRegistry id

/-- The registries right after a navigation/reload: every lookup misses. -/
def freshRegistries : PageRegistries :=
  ⟨fun _ => none, fun _ => none⟩

/-- The structured return value of `clickElement`. -/
structure ClickResult where
  success : Bool
  element_id : String
  click_type : String
  element_name : String
deriving Repr, DecidableEq

/-- `clickElement` (content.js lines 1618-1643): an unknown id throws
"Element not found"; otherwise the element is scrolled into view, clicked,
and a structured success record is returned. -/
def clickElement (r : PageRegistries) (element_id click_type : String) :
    Except String ClickResult :=
  match getElementById r element_id with
  | none => .error ("Element not found: " ++ element_id)
  | some el => .ok ⟨true, element_id, click_type, el.name⟩

/-- The structured return value of the fill paths (the extra
`element_name`/`focus_applied` fields of the code carry no logic). -/
structure FillResult where
  success : Bool
  element_id : String
  value : String
  actual_value : String
  method : String
deriving Repr, DecidableEq

/-- `fillElementStandard` (content.js lines 565-604): an unknown id throws;
otherwise, after the scripted focus/clear/fill event sequence, the element's
resulting value — `postFillValue`, the DOM oracle standing for
`getElementValue(element)` — is re-read and `success` is whether it contains
the requested value (`actualValue.includes(value)`). -/
def fillElementStandard (r : PageRegistries) (postFillValue : Elem → String → String)
    (element_id value : String) : Except String FillResult :=
  match getElementById r element_id with
  | none => .error ("Element not found: " ++ element_id)
  | some el =>
    let actualValue := postFillValue el value
    .ok ⟨jsIncludes actualValue value, element_id, value, actualValue, "standard_fill"⟩

/-- `executeDirectBypass` (content.js lines 403-430): the platform-specific
bypass sequence runs inside a try; `bypassRun` is its outcome (`.error` =
any exception thrown during the sequence). The catch clause performs exactly
one fallback to `fillElementStandard` (with clear and focus forced on). -/
def executeDirectBypass (bypassRun : Except String FillResult)
    (r : PageRegistries) (postFillValue : Elem → String → String)
    (element_id value : String) : Except String FillResult :=
  match bypassRun with
  | .ok res => .ok res
  | .error _ => fillElementStandard r postFillValue element_id value

/-- `fillElementWithAntiDetection` (content.js lines 329-363), the
`element_fill` entry point: an unknown id throws "Element not found";
`useBypass` abstracts `platformConfig && shouldUseBypass(element, config)`. -/
def fillElementWithAntiDetection (r : PageRegistries) (useBypass : Elem → Bool)
    (bypassRun : Except String FillResult) (postFillValue : Elem → String → String)
    (element_id value : String) : Except String FillResult :=
  match getElementById r element_id with
  | none => .error ("Element not found: " ++ element_id)
  | some el =>
    if useBypass el then executeDirectBypass bypassRun r postFillValue element_id value
    else fillElementStandard r postFillValue element_id value

/-- The structured reply of the "get_element_state" message case. -/
structure ElementStateResult where
  element_id : String
  element_name : String
  current_value : String
deriving Repr, DecidableEq

/-- The "get_element_state" case of `handleMessage` (content.js lines
278-289): an unknown id throws "Element not found"; otherwise the element's
name, coarse state and current value are reported (the DOM-derived state
subfields are omitted). -/
def handleGetElementState (r : PageRegistries) (element_id : String) :
    Except String ElementStateResult :=
  match getElementById r element_id with
  | none => .error ("Element not found: " ++ element_id)
  | some el => .ok ⟨element_id, el.name, el.value⟩

/-- A one-element main registry for concrete runs. -/
def demoElem : Elem :=
  ⟨"Compose box", ""⟩

/-- Registries holding exactly the element "element_1". -/
def demoRegistries : PageRegistries :=
  ⟨fun _ => none, fun id => if id = "element_1" then some demoElem else none⟩

/-! ### Tab creation (src/opendia-extension/src/background/background.js) -/

/-- The `tab_create` parameters validation inspects; `count` is a JS number
defaulting to 1, `urls = some l` when an array was passed. -/
structure TabCreateParams where
  url : Option String
  urls : Option (List String)
  count : Int
deriving Repr, DecidableEq

/-- JS truthiness of the `url` parameter: present and non-empty. -/
def urlTruthy : Option String → Bool
  | none => false
  | some s => s != ""

/-- JS truthiness of the `urls` parameter: a JS array is always truthy, even
when empty. -/
def urlsTruthy : Option (List String) → Bool
  | none => false
  | some _ => true

/-- Whether a JS string is blank, i.e. `!s.trim()`: every character is
whitespace (so the trimmed string is empty, hence falsy). -/
def jsTrimIsEmpty (s : String) : Bool :=
  s.data.all (fun c => c.isWhitespace)

/-- The `{valid, error}` object `validateTabCreateParams` returns. -/
structure ValidationResult where
  valid : Bool
  error : Option String
deriving Repr, DecidableEq

/-- The per-entry validation loop over the urls array: index of the first
entry that is not a non-blank string (entries are typed `String` here, so
only blankness remains), if any. -/
def firstBlankIdx : List String → Nat → Option Nat
  | [], _ => none
  | u :: rest, i => if jsTrimIsEmpty u then some i else firstBlankIdx rest (i + 1)

/-- `validateTabCreateParams` (background.js lines 1220-1261), with JS
truthiness made explicit. -/
def validateTabCreateParams (p : TabCreateParams) : ValidationResult :=
  if urlTruthy p.url = true ∧ urlsTruthy p.urls = true then
    ⟨false, some "Cannot specify both \x27url\x27 and \x27urls\x27 parameters"⟩
  else if urlsTruthy p.urls = true ∧ p.count > 1 then
    ⟨false, some "Cannot use \x27count\x27 with \x27urls\x27 array"⟩
  else if urlTruthy p.url = false ∧ urlsTruthy p.urls = false ∧ p.count > 1 then
    ⟨false, some "Must specify \x27url\x27 when using \x27count\x27 parameter"⟩
  else
    match p.urls with
    | some l =>
      if l.length = 0 then
        ⟨false, some "\x27urls\x27 must be a non-empty array"⟩
      else if l.length > 100 then
        ⟨false, some "Maximum 100 URLs allowed in batch operation"⟩
      else
        match firstBlankIdx l 0 with
        | some i =>
          ⟨false, some ("Invalid URL at index " ++ toString i ++ ": must be a non-empty string")⟩
        | none =>
          if p.count < 1 ∨ p.count > 50 then
            ⟨false, some "Count must be between 1 and 50"⟩
          else ⟨true, none⟩
    | none =>
      if p.count < 1 ∨ p.count > 50 then
        ⟨false, some "Count must be between 1 and 50"⟩
      else ⟨true, none⟩

/-- The documented bounds of `tab_create` (input schema: count 1..50
defaulting to 1 and used with a single url, urls an array of 1..100
non-blank entries, url and urls mutually exclusive). -/
def satisfiesDocumentedBounds (p : TabCreateParams) : Prop :=
  1 ≤ p.count ∧ p.count ≤ 50 ∧
  ¬(urlTruthy p.url = true ∧ urlsTruthy p.urls = true) ∧
  (p.count > 1 → urlsTruthy p.urls = false) ∧
  (p.count > 1 → urlTruthy p.url = true) ∧
  (∀ l, p.urls = some l →
    1 ≤ l.length ∧ l.length ≤ 100 ∧ ∀ u ∈ l, jsTrimIsEmpty u = false)

/-- A created-tab record pushed by `createTabsBatch`; `requestedActive` is
the `active` property passed to `browser.tabs.create`
(`active && isLastTab`). The code then stores the browser-reported
`updatedTab.active` and the post-load url/title, which are host-side and not
modelled. -/
structure CreatedTabRecord where
  tab_id : Nat
  requested_url : String
  index : Nat
  requestedActive : Bool
deriving Repr, DecidableEq

/-- A per-item failure collected into `errors`. -/
structure TabCreateError where
  index : Nat
  url : String
  error : String
deriving Repr, DecidableEq

/-- The `summary` object of the batch result. -/
structure BatchSummary where
  total_requested : Nat
  successful : Nat
  failed : Nat
deriving Repr, DecidableEq

/-- The batch result (warnings, execution time and the partial-success flag
carry no counting logic and are omitted). -/
structure BatchResult where
  success : Bool
  summary : BatchSummary
  created_tabs : List CreatedTabRecord
  errors : List TabCreateError
  active_tab : Option CreatedTabRecord
deriving Repr, DecidableEq

/-- The per-URL loop body of `createTabsBatch` (background.js lines
1360-1419), flattened over the chunk loop: the chunks partition `urls` in
order and the chunk boundaries only insert delays, so the URL at global
index `gi = chunkStart + i` is processed identically. `tabsCreate` is the
`browser.tabs.create` oracle (`.error` = the per-item exception that the
catch collects into `errors`; the loop then continues). -/
def createTabsBatchGo (tabsCreate : Nat → String → Bool → Except String Nat)
    (active : Bool) (total : Nat) : List String → Nat →
    List CreatedTabRecord × List TabCreateError
  | [], _ => ([], [])
  | u :: rest, gi =>
    -- `const isLastTab = globalIndex === totalTabs - 1;`
    -- `const shouldActivate = active && isLastTab;`
    let shouldActivate := active && decide (gi = total - 1)
    let r := createTabsBatchGo tabsCreate active total rest (gi + 1)
    match tabsCreate gi u shouldActivate with
    | .ok tid => (⟨tid, u, gi, shouldActivate⟩ :: r.1, r.2)
    | .error e => (r.1, ⟨gi, u, e⟩ :: r.2)

/-- `createTabsBatch` (background.js lines 1335-1470): runs the loop over all
requested URLs and assembles the summary and the active-tab report. -/
def createTabsBatch (tabsCreate : Nat → String → Bool → Except String Nat)
    (urls : List String) (active : Bool) : BatchResult :=
  let totalTabs := urls.length
  let r := createTabsBatchGo tabsCreate active totalTabs urls 0
  { success := decide (r.2.length = 0),
    summary := ⟨totalTabs, r.1.length, r.2.length⟩,
    created_tabs := r.1,
    errors := r.2,
    active_tab := (r.1.filter (fun t => t.requestedActive)).head? }

/-- A `browser.tabs.create` oracle that fails at global index 2. -/
def demoTabsCreate : Nat → String → Bool → Except String Nat :=
  fun gi _ _ => if gi = 2 then .error "Tab creation failed" else .ok (100 + gi)

/-- Five copies of the same URL, as produced by `url, count=5` repeat mode. -/
def demoUrls : List String :=
  ["https://example.com", "https://example.com", "https://example.com",
   "https://example.com", "https://example.com"]

/-! ### Safety mode guard (background.js handleMCPRequest) -/

/-- The write/edit tool list (background.js lines 22-25). -/
def WRITE_EDIT_TOOLS : List String :=
  ["element_click", "element_fill"]

/-- `params.tab_id ? tab N : the current page` (JS truthiness: id 0 counts
as absent). -/
def safetyTargetInfo (tab_id : Option Nat) : String :=
  match tab_id with
  | some t => if t ≠ 0 then "tab " ++ toString t else "the current page"
  | none => "the current page"

/-- The message of the error thrown by the safety-mode guard
(background.js line 1002). -/
def safetyModeErrorMessage (method targetInfo : String) : String :=
  "🛡️ Safety Mode is enabled. This tool (" ++ method ++
    ") is blocked to prevent modifications to " ++ targetInfo ++
    ". To disable Safety Mode, open the OpenDia extension popup and toggle off \"Safety Mode\"."

/-- The guard and switch of the extension's `handleMCPRequest`
(background.js lines 999-1003 and the switch that follows): when safety mode
is on and the method is a write/edit tool, the explanatory error is thrown
before the switch runs — so before any target-context resolution or
content-script dispatch, both of which live inside `dispatch`. Otherwise the
switch runs and never reads the flag. -/
def handleMCPRequestDispatch {α : Type} (safetyModeEnabled : Bool) (method : String)
    (tab_id : Option Nat) (dispatch : String → Except String α) : Except String α :=
  if safetyModeEnabled && WRITE_EDIT_TOOLS.contains method then
    .error (safetyModeErrorMessage method (safetyTargetInfo tab_id))
  else
    dispatch method

end Opendia

namespace Opendia

/-! ### Theorems -/

/-- Helper: deleting an id makes it non-pending. -/
theorem hasPending_deletePending (s : TransportState) (id : String) :
    hasPending (deletePending s id) id = false := by
  simp [hasPending, deletePending]

/-- C1: the timeout armed by `callBrowserTool` is 30000ms; when it fires on a
still-pending call the entry is removed and the call is rejected with the
"Tool call timeout" error; a response frame whose id is no longer (or never
was) pending — in particular one arriving after the timeout fired — is handled
as a strict no-op: the state is unchanged and no promise is settled. -/
theorem transport_timeout_and_unmatched_response_noop
    (s : TransportState) (callId : String) (m : ToolResponse)
    (hpend : hasPending s callId = true) (hid : m.id = callId) :
    toolCallTimeoutMs = 30000 ∧
    (timeoutCallback s callId).2 = CallEvent.rejectedCall callId "Tool call timeout" ∧
    hasPending (timeoutCallback s callId).1 callId = false ∧
    handleToolResponse (timeoutCallback s callId).1 m
      = ((timeoutCallback s callId).1, CallEvent.noEvent) ∧
    (∀ (t : TransportState) (m2 : ToolResponse), hasPending t m2.id = false →
      handleToolResponse t m2 = (t, CallEvent.noEvent)) := by
  refine ⟨rfl, ?_, ?_, ?_, ?_⟩
  · simp [timeoutCallback, hpend]
  · simp [timeoutCallback, hpend, hasPending_deletePending]
  · have h1 : hasPending (timeoutCallback s callId).1 m.id = false := by
      simp [timeoutCallback, hpend, hid, hasPending_deletePending]
    simp [handleToolResponse, h1]
  · intro t m2 h
    simp [handleToolResponse, h]

/-- C1 witness: a concrete pending call "123" that times out; the later
response for "123" is a no-op. -/
theorem transport_timeout_and_unmatched_response_noop_witness :
    toolCallTimeoutMs = 30000 ∧
    (timeoutCallback ⟨["123"]⟩ "123").2 = CallEvent.rejectedCall "123" "Tool call timeout" ∧
    hasPending (timeoutCallback ⟨["123"]⟩ "123").1 "123" = false ∧
    handleToolResponse (timeoutCallback ⟨["123"]⟩ "123").1 ⟨"123", none⟩
      = ((timeoutCallback ⟨["123"]⟩ "123").1, CallEvent.noEvent) ∧
    (∀ (t : TransportState) (m2 : ToolResponse), hasPending t m2.id = false →
      handleToolResponse t m2 = (t, CallEvent.noEvent)) :=
  transport_timeout_and_unmatched_response_noop ⟨["123"]⟩ "123" ⟨"123", none⟩
    (by decide) rfl

/-- C2: the backoff formula of `scheduleReconnect`, evaluated at the attempts
counter values 0 through 4 (the counter starts at 0 and is incremented per
failed attempt, so these are the first through fifth reconnection attempts),
yields exactly 5000, 10000, 20000, 30000, 30000 milliseconds. -/
theorem reconnectBackoff_first_five_attempts :
    (List.range 5).map reconnectBackoffMs = [5000, 10000, 20000, 30000, 30000] := by
  decide

/-- C5: a `tools/call` issued while the extension socket is not open gets the
structured setup-instruction error (isError true) at once: the result does not
consult the browser-call or formatting oracles at all (hence no part of the
30s timeout is involved), the transport state is untouched (no PendingCall is
registered), the reply is a value rather than a thrown exception, and its text
carries the setup instructions. -/
theorem toolsCall_not_connected_immediate_error
    (f g : TransportState → TransportState × Except String String)
    (fmt fmt2 : String → String) (s : TransportState) :
    handleToolsCall false f fmt s = (s, ⟨extensionNotConnectedMessage, true⟩) ∧
    handleToolsCall false f fmt s = handleToolsCall false g fmt2 s ∧
    jsIncludes extensionNotConnectedMessage "Setup instructions:" = true := by
  refine ⟨rfl, rfl, ?_⟩
  decide

/-- C3 (code bug): in `quickDiscovery` the generic pattern-rule branch is
dead. Its guard (content.js line 673) reads the undeclared identifier
`bestMethod`, throwing a ReferenceError that the surrounding catch swallows,
so whenever the bypass step adopted no matches the engine jumps straight to
the viewport scan: the used method is always the bypass or the viewport scan,
never the generic pattern lookup. Concretely, on a page with no bypass
platform whose pattern rule matches at confidence 0.95, the claimed priority
order requires the pattern lookup, but the code performs the viewport scan. -/
theorem quickDiscovery_generic_pattern_branch_dead :
    (∀ env : DiscoveryEnv,
      (quickDiscoveryResult env).2 = UsedMethod.anti_detection_bypass ∨
      (quickDiscoveryResult env).2 = UsedMethod.viewport_scan) ∧
    quickDiscoveryResult patternOnlyEnv = (1, UsedMethod.viewport_scan) := by
  constructor
  · intro env
    by_cases h1 : (env.platformMatched && (env.hintHasPost || env.hintHasTweet)) = true
    · by_cases h2 : env.bypassConfidence > 0.9
      · by_cases h3 : min env.bypassElementCount 3 = 0
        · right
          simp [quickDiscoveryResult, quickDiscoveryTryBlock, bestMethodLookup, h1, h2, h3]
        · left
          simp [quickDiscoveryResult, quickDiscoveryTryBlock, bestMethodLookup, h1, h2, h3]
      · right
        simp [quickDiscoveryResult, quickDiscoveryTryBlock, bestMethodLookup, h1, h2]
    · right
      simp [quickDiscoveryResult, quickDiscoveryTryBlock, bestMethodLookup, h1]
  · show quickDiscoveryResult patternOnlyEnv = (1, UsedMethod.viewport_scan)
    norm_num [quickDiscoveryResult, quickDiscoveryTryBlock, bestMethodLookup,
      patternOnlyEnv, quickViewportScanCount, List.filter]

/-- C9: intent parsing is total — `parseIntent` is a function returning a
(category, action) pair on every hint string — and every hint matching none
of the recognized keyword patterns yields the fixed default
`("content", "post_create")`. -/
theorem parseIntent_total_with_default (intent : String)
    (h : matchesAnyIntentKeyword intent = false) :
    parseIntent intent = ("content", "post_create") := by
  have hk : ∀ k ∈ intentKeywords, jsIncludes (jsToLower intent) k = false := by
    intro k hkmem
    cases hb : jsIncludes (jsToLower intent) k with
    | false => rfl
    | true =>
      exfalso
      have hany : matchesAnyIntentKeyword intent = true :=
        List.any_eq_true.mpr ⟨k, hkmem, hb⟩
      rw [hany] at h
      exact Bool.noConfusion h
  simp [parseIntent,
    hk "login" (by decide), hk "sign in" (by decide), hk "log in" (by decide),
    hk "signup" (by decide), hk "sign up" (by decide), hk "register" (by decide),
    hk "create account" (by decide),
    hk "tweet" (by decide), hk "post" (by decide), hk "compose" (by decide),
    hk "create" (by decide), hk "write" (by decide), hk "publish" (by decide),
    hk "comment" (by decide), hk "reply" (by decide),
    hk "search" (by decide), hk "find" (by decide), hk "look for" (by decide),
    hk "menu" (by decide), hk "navigation" (by decide), hk "nav" (by decide),
    hk "submit" (by decide), hk "send" (by decide), hk "save" (by decide),
    hk "reset" (by decide), hk "clear" (by decide), hk "cancel" (by decide),
    hk "button" (by decide), hk "click" (by decide),
    hk "input" (by decide), hk "field" (by decide), hk "text" (by decide)]

/-- C9 witness: the hint "zzz" matches no keyword and parses to the default. -/
theorem parseIntent_total_with_default_witness :
    matchesAnyIntentKeyword "zzz" = false ∧
    parseIntent "zzz" = ("content", "post_create") :=
  ⟨by decide, parseIntent_total_with_default "zzz" (by decide)⟩

/-- C6: when the element is registered and the platform bypass sequence
throws (any exception, any message), `executeDirectBypass` performs exactly
one fallback — its result IS the standard-fill run, the bypass error is not
propagated — and that standard fill returns a structured `FillResult`
reporting success or failure with method "standard_fill" rather than an
unhandled exception. -/
theorem bypass_exception_single_fallback_structured
    (r : PageRegistries) (element_id value errMsg : String)
    (postFillValue : Elem → String → String) (el : Elem)
    (hel : getElementById r element_id = some el) :
    executeDirectBypass (.error errMsg) r postFillValue element_id value
      = fillElementStandard r postFillValue element_id value ∧
    fillElementStandard r postFillValue element_id value
      = .ok ⟨jsIncludes (postFillValue el value) value, element_id, value,
             postFillValue el value, "standard_fill"⟩ := by
  constructor
  · rfl
  · simp [fillElementStandard, hel]

/-- C6 witness: a concrete registered element whose bypass throws; the call
falls back once and returns the structured standard-fill result. -/
theorem bypass_exception_single_fallback_structured_witness :
    getElementById demoRegistries "element_1" = some demoElem ∧
    executeDirectBypass (.error "Bypass failed") demoRegistries
        (fun _ v => v) "element_1" "hi"
      = fillElementStandard demoRegistries (fun _ v => v) "element_1" "hi" ∧
    fillElementStandard demoRegistries (fun _ v => v) "element_1" "hi"
      = .ok ⟨true, "element_1", "hi", "hi", "standard_fill"⟩ :=
  ⟨rfl,
   (bypass_exception_single_fallback_structured demoRegistries "element_1" "hi"
      "Bypass failed" (fun _ v => v) demoElem rfl).1,
   rfl⟩

/-- C7: an element id registered in neither the quick nor the main registry
of the current page generation — in particular, any id issued before a
navigation/reload, since both maps are created empty on page load — makes
`element_click`, `element_fill` and `element_get_state` fail with the
"Element not found" error instead of returning or acting on a stale
handle. -/
theorem unregistered_element_id_not_found (r : PageRegistries) (id : String)
    (hq : r.quickRegistry id = none) (he : r.elementRegistry id = none)
    (click_type value : String) (useBypass : Elem → Bool)
    (bypassRun : Except String FillResult)
    (postFillValue : Elem → String → String) :
    clickElement r id click_type = .error ("Element not found: " ++ id) ∧
    fillElementWithAntiDetection r useBypass bypassRun postFillValue id value
      = .error ("Element not found: " ++ id) ∧
    handleGetElementState r id = .error ("Element not found: " ++ id) := by
  have hg : getElementById r id = none := by
    unfold getElementById
    split
    · exact hq
    · exact he
  refine ⟨?_, ?_, ?_⟩ <;>
    simp [clickElement, fillElementWithAntiDetection, handleGetElementState, hg]

/-- C7 witness: on the fresh registries of a new page generation, the stale
id "element_7" is rejected by all three operations. -/
theorem unregistered_element_id_not_found_witness :
    clickElement freshRegistries "element_7" "left"
      = .error ("Element not found: " ++ "element_7") ∧
    fillElementWithAntiDetection freshRegistries (fun _ => true)
        (.ok ⟨true, "", "", "", ""⟩) (fun _ v => v) "element_7" "hello"
      = .error ("Element not found: " ++ "element_7") ∧
    handleGetElementState freshRegistries "element_7"
      = .error ("Element not found: " ++ "element_7") :=
  unregistered_element_id_not_found freshRegistries "element_7" rfl rfl
    "left" "hello" (fun _ => true) (.ok ⟨true, "", "", "", ""⟩) (fun _ v => v)

/-- C10: with safety mode enabled, a call whose method is element_click or
element_fill is rejected with the explanatory safety-mode error and the
dispatch (target-context resolution and content-script messaging) is never
consulted; every other method behaves identically whether the flag is on or
off. -/
theorem safety_mode_blocks_write_tools_only {α : Type} (method : String)
    (tab_id : Option Nat) (f g : String → Except String α) :
    (WRITE_EDIT_TOOLS.contains method = true →
      handleMCPRequestDispatch true method tab_id f
        = .error (safetyModeErrorMessage method (safetyTargetInfo tab_id)) ∧
      handleMCPRequestDispatch true method tab_id f
        = handleMCPRequestDispatch true method tab_id g) ∧
    (WRITE_EDIT_TOOLS.contains method = false →
      handleMCPRequestDispatch true method tab_id f
        = handleMCPRequestDispatch false method tab_id f) := by
  constructor
  · intro h
    have hm : method ∈ WRITE_EDIT_TOOLS := by simpa using h
    constructor <;> simp [handleMCPRequestDispatch, hm]
  · intro h
    have hm : method ∉ WRITE_EDIT_TOOLS := by simpa using h
    simp [handleMCPRequestDispatch, hm]

/-- C10 witness: element_click is blocked under safety mode with the
explanatory error; tab_list is unaffected by the flag. -/
theorem safety_mode_blocks_write_tools_only_witness :
    handleMCPRequestDispatch true "element_click" (some 7)
        (fun _ => Except.ok (0 : Nat))
      = Except.error (safetyModeErrorMessage "element_click"
          (safetyTargetInfo (some 7))) ∧
    handleMCPRequestDispatch true "tab_list" none (fun _ => Except.ok (0 : Nat))
      = handleMCPRequestDispatch false "tab_list" none
          (fun _ => Except.ok (0 : Nat)) :=
  ⟨((safety_mode_blocks_write_tools_only "element_click" (some 7)
      (fun _ => Except.ok (0 : Nat)) (fun _ => Except.ok (0 : Nat))).1
      (by decide)).1,
   (safety_mode_blocks_write_tools_only "tab_list" none
      (fun _ => Except.ok (0 : Nat)) (fun _ => Except.ok (0 : Nat))).2
      (by decide)⟩

/-- Helper: if no entry of the urls array is blank, the per-entry loop finds
nothing to reject. -/
theorem firstBlankIdx_eq_none (l : List String)
    (h : ∀ u ∈ l, jsTrimIsEmpty u = false) :
    ∀ i, firstBlankIdx l i = none := by
  induction l with
  | nil => intro i; rfl
  | cons u rest ih =>
    intro i
    have hu : jsTrimIsEmpty u = false := h u (by simp)
    simp only [firstBlankIdx, hu, Bool.false_eq_true, if_false]
    exact ih (fun v hv => h v (List.mem_cons_of_mem u hv)) (i + 1)

/-- Helper: whatever passes validation observes the mutual-exclusion and
bound checks. -/
theorem validateTabCreateParams_accept_sound (p : TabCreateParams)
    (h : (validateTabCreateParams p).valid = true) :
    ¬(urlTruthy p.url = true ∧ urlsTruthy p.urls = true) ∧
    ¬(urlsTruthy p.urls = true ∧ p.count > 1) ∧
    1 ≤ p.count ∧ p.count ≤ 50 ∧
    ∀ l, p.urls = some l → l.length ≠ 0 ∧ l.length ≤ 100 := by
  unfold validateTabCreateParams at h
  split at h
  next hc1 => simp at h
  next hc1 =>
  split at h
  next hc2 => simp at h
  next hc2 =>
  split at h
  next hc3 => simp at h
  next hc3 =>
  split at h
  next l heq =>
    split at h
    next hl0 => simp at h
    next hl0 =>
    split at h
    next hl100 => simp at h
    next hl100 =>
    split at h
    next i hfind => simp at h
    next hfind =>
    split at h
    next hcnt => simp at h
    next hcnt =>
    rw [not_or] at hcnt
    refine ⟨hc1, hc2, by omega, by omega, ?_⟩
    intro l2 hl2
    rw [heq] at hl2
    injection hl2 with hll
    subst hll
    exact ⟨hl0, by omega⟩
  next heq =>
    split at h
    next hcnt => simp at h
    next hcnt =>
    rw [not_or] at hcnt
    refine ⟨hc1, hc2, by omega, by omega, ?_⟩
    intro l2 hl2
    rw [heq] at hl2
    exact absurd hl2 (by simp)

/-- C8: tab-creation validation rejects every call supplying both a (truthy)
single url and a urls array; every call pairing count > 1 with a urls array;
every call whose count lies outside 1..50; and every call whose urls array
is empty or longer than 100 entries — while no call inside the documented
bounds is rejected. -/
theorem validateTabCreate_rejects_and_accepts :
    (∀ p : TabCreateParams, urlTruthy p.url = true → urlsTruthy p.urls = true →
      (validateTabCreateParams p).valid = false) ∧
    (∀ p : TabCreateParams, urlsTruthy p.urls = true → p.count > 1 →
      (validateTabCreateParams p).valid = false) ∧
    (∀ p : TabCreateParams, p.count < 1 ∨ p.count > 50 →
      (validateTabCreateParams p).valid = false) ∧
    (∀ (p : TabCreateParams) (l : List String), p.urls = some l →
      l.length = 0 ∨ l.length > 100 →
      (validateTabCreateParams p).valid = false) ∧
    (∀ p : TabCreateParams, satisfiesDocumentedBounds p →
      (validateTabCreateParams p).valid = true) := by
  refine ⟨?_, ?_, ?_, ?_, ?_⟩
  · intro p h1 h2
    cases hv : (validateTabCreateParams p).valid
    · rfl
    · exact absurd ⟨h1, h2⟩ (validateTabCreateParams_accept_sound p hv).1
  · intro p h1 h2
    cases hv : (validateTabCreateParams p).valid
    · rfl
    · exact absurd ⟨h1, h2⟩ (validateTabCreateParams_accept_sound p hv).2.1
  · intro p h
    cases hv : (validateTabCreateParams p).valid
    · rfl
    · have hs := (validateTabCreateParams_accept_sound p hv).2.2
      omega
  · intro p l heq h
    cases hv : (validateTabCreateParams p).valid
    · rfl
    · have hs := (validateTabCreateParams_accept_sound p hv).2.2.2.2 l heq
      omega
  · intro p hb
    obtain ⟨u, us, c⟩ := p
    obtain ⟨h1le, h50, hnb, hncu, hncurl, hurls⟩ := hb
    dsimp only at h1le h50 hnb hncu hncurl hurls
    cases us with
    | none =>
      have c1 : ¬(urlTruthy u = true ∧ urlsTruthy (none : Option (List String)) = true) := by
        simp [urlsTruthy]
      have c2 : ¬(urlsTruthy (none : Option (List String)) = true ∧ c > 1) := by
        simp [urlsTruthy]
      have c3 : ¬(urlTruthy u = false ∧ urlsTruthy (none : Option (List String)) = false ∧ c > 1) := by
        rintro ⟨hu0, -, hgt⟩
        rw [hncurl hgt] at hu0
        exact Bool.noConfusion hu0
      simp only [validateTabCreateParams, if_neg c1, if_neg c2, if_neg c3]
      rw [if_neg (show ¬(c < 1 ∨ c > 50) by omega)]
    | some l =>
      obtain ⟨hl1, hl100, hlb⟩ := hurls l rfl
      have c1 : ¬(urlTruthy u = true ∧ urlsTruthy (some l) = true) := by
        rintro ⟨hu1, hus1⟩
        exact hnb ⟨hu1, hus1⟩
      have c2 : ¬(urlsTruthy (some l) = true ∧ c > 1) := by
        rintro ⟨-, hgt⟩
        have := hncu hgt
        simp [urlsTruthy] at this
      have c3 : ¬(urlTruthy u = false ∧ urlsTruthy (some l) = false ∧ c > 1) := by
        rintro ⟨-, hus0, -⟩
        simp [urlsTruthy] at hus0
      simp only [validateTabCreateParams, if_neg c1, if_neg c2, if_neg c3,
        if_neg (show ¬l.length = 0 by omega), if_neg (show ¬l.length > 100 by omega),
        firstBlankIdx_eq_none l hlb 0, if_neg (show ¬(c < 1 ∨ c > 50) by omega)]

/-- C8 witness: supplying both url and urls is rejected; a single url with
count 5 inside the documented bounds is accepted. -/
theorem validateTabCreate_rejects_and_accepts_witness :
    (validateTabCreateParams ⟨some "https://a.com", some ["https://b.com"], 1⟩).valid
      = false ∧
    (validateTabCreateParams ⟨some "https://a.com", none, 5⟩).valid = true :=
  ⟨validateTabCreate_rejects_and_accepts.1
      ⟨some "https://a.com", some ["https://b.com"], 1⟩ (by decide) rfl,
   validateTabCreate_rejects_and_accepts.2.2.2.2
      ⟨some "https://a.com", none, 5⟩
      ⟨by norm_num, by norm_num, by simp [urlTruthy, urlsTruthy],
       fun _ => rfl, fun _ => by decide, fun l h => by cases h⟩⟩

/-- Helper: the loop accounts for every URL — one created-tab record or one
error record each. -/
theorem createTabsBatchGo_length (f : Nat → String → Bool → Except String Nat)
    (a : Bool) (total : Nat) :
    ∀ (urls : List String) (gi : Nat),
      (createTabsBatchGo f a total urls gi).1.length +
        (createTabsBatchGo f a total urls gi).2.length = urls.length := by
  intro urls
  induction urls with
  | nil => intro gi; simp [createTabsBatchGo]
  | cons u rest ih =>
    intro gi
    cases hf : f gi u (a && decide (gi = total - 1)) with
    | ok tid =>
      simp only [createTabsBatchGo, hf, List.length_cons]
      have := ih (gi + 1)
      omega
    | error e =>
      simp only [createTabsBatchGo, hf, List.length_cons]
      have := ih (gi + 1)
      omega

/-- Helper: every created record carries an index at or past the loop start,
and a requested-active flag only with the `active` parameter set and only at
the last index. -/
theorem createTabsBatchGo_mem (f : Nat → String → Bool → Except String Nat)
    (a : Bool) (total : Nat) :
    ∀ (urls : List String) (gi : Nat) (t : CreatedTabRecord),
      t ∈ (createTabsBatchGo f a total urls gi).1 →
      gi ≤ t.index ∧ (t.requestedActive = true → a = true ∧ t.index = total - 1) := by
  intro urls
  induction urls with
  | nil => intro gi t ht; simp [createTabsBatchGo] at ht
  | cons u rest ih =>
    intro gi t ht
    cases hf : f gi u (a && decide (gi = total - 1)) with
    | error e =>
      simp only [createTabsBatchGo, hf] at ht
      have := ih (gi + 1) t ht
      exact ⟨by omega, this.2⟩
    | ok tid =>
      simp only [createTabsBatchGo, hf] at ht
      rcases List.mem_cons.mp ht with rfl | hmem
      · refine ⟨Nat.le_refl gi, ?_⟩
        intro hra
        rw [Bool.and_eq_true] at hra
        exact ⟨hra.1, of_decide_eq_true hra.2⟩
      · have := ih (gi + 1) t hmem
        exact ⟨by omega, this.2⟩

/-- Helper: once the loop index is past the last position, no created record
asks for activation. -/
theorem createTabsBatchGo_no_active_past (f : Nat → String → Bool → Except String Nat)
    (a : Bool) (total : Nat) :
    ∀ (urls : List String) (gi : Nat), total - 1 < gi →
      (createTabsBatchGo f a total urls gi).1.filter
        (fun t => t.requestedActive) = [] := by
  intro urls
  induction urls with
  | nil => intro gi hgi; simp [createTabsBatchGo]
  | cons u rest ih =>
    intro gi hgi
    have hne : (a && decide (gi = total - 1)) = false := by
      have hx : gi ≠ total - 1 := by omega
      simp [hx]
    cases hf : f gi u (a && decide (gi = total - 1)) with
    | ok tid =>
      simp only [createTabsBatchGo, hf]
      rw [List.filter_cons_of_neg (by simp [hne])]
      exact ih (gi + 1) (by omega)
    | error e =>
      simp only [createTabsBatchGo, hf]
      exact ih (gi + 1) (by omega)

/-- Helper: at most one created record asks for activation. -/
theorem createTabsBatchGo_active_at_most_one
    (f : Nat → String → Bool → Except String Nat) (a : Bool) (total : Nat) :
    ∀ (urls : List String) (gi : Nat),
      ((createTabsBatchGo f a total urls gi).1.filter
        (fun t => t.requestedActive)).length ≤ 1 := by
  intro urls
  induction urls with
  | nil => intro gi; simp [createTabsBatchGo]
  | cons u rest ih =>
    intro gi
    cases hf : f gi u (a && decide (gi = total - 1)) with
    | error e =>
      simp only [createTabsBatchGo, hf]
      exact ih (gi + 1)
    | ok tid =>
      by_cases hact : (a && decide (gi = total - 1)) = true
      · have hgi : gi = total - 1 := by
          have hact2 := hact
          rw [Bool.and_eq_true] at hact2
          exact of_decide_eq_true hact2.2
        have hrest := createTabsBatchGo_no_active_past f a total rest (gi + 1) (by omega)
        simp only [createTabsBatchGo, hf]
        rw [List.filter_cons_of_pos (by simpa using hact), hrest]
        simp
      · have hact0 : (a && decide (gi = total - 1)) = false :=
          Bool.eq_false_iff.mpr hact
        simp only [createTabsBatchGo, hf]
        rw [List.filter_cons_of_neg (by simpa using hact0)]
        exact ih (gi + 1)

/-- C4: a batch over N requested URLs reports `total_requested = N` and
`successful + failed = N` (every URL yields a created-tab record or an error
record; the loop never stops early), and at most one created tab is
requested active — only the one at the last index, and only when the
`active` parameter is true. -/
theorem createTabsBatch_summary_and_single_active
    (tabsCreate : Nat → String → Bool → Except String Nat)
    (urls : List String) (active : Bool) (hne : urls ≠ []) :
    (createTabsBatch tabsCreate urls active).summary.total_requested = urls.length ∧
    (createTabsBatch tabsCreate urls active).summary.successful +
        (createTabsBatch tabsCreate urls active).summary.failed = urls.length ∧
    ((createTabsBatch tabsCreate urls active).created_tabs.filter
        (fun t => t.requestedActive)).length ≤ 1 ∧
    ∀ t ∈ (createTabsBatch tabsCreate urls active).created_tabs,
      t.requestedActive = true → active = true ∧ t.index = urls.length - 1 := by
  refine ⟨rfl, ?_, ?_, ?_⟩
  · exact createTabsBatchGo_length tabsCreate active urls.length urls 0
  · exact createTabsBatchGo_active_at_most_one tabsCreate active urls.length urls 0
  · intro t ht
    exact (createTabsBatchGo_mem tabsCreate active urls.length urls 0 t ht).2

/-- C4 witness: five copies of the same URL with the creation of the third
failing; the summary still accounts for all five and only the last tab is
requested active. -/
theorem createTabsBatch_summary_and_single_active_witness :
    (createTabsBatch demoTabsCreate demoUrls true).summary.total_requested
        = demoUrls.length ∧
    (createTabsBatch demoTabsCreate demoUrls true).summary.successful +
        (createTabsBatch demoTabsCreate demoUrls true).summary.failed
        = demoUrls.length ∧
    ((createTabsBatch demoTabsCreate demoUrls true).created_tabs.filter
        (fun t => t.requestedActive)).length ≤ 1 ∧
    ∀ t ∈ (createTabsBatch demoTabsCreate demoUrls true).created_tabs,
      t.requestedActive = true → true = true ∧ t.index = demoUrls.length - 1 :=
  createTabsBatch_summary_and_single_active demoTabsCreate demoUrls true (by decide)

end Opendia
